import Mathlib

/-!
Verification of the WeatherMe repository: a backend relay (src/server/index.js)
forwarding requests to a weather provider, and a presentation client
(src/client/pages/index.js). Definitions below are shallow embeddings of the
JavaScript source; theorems settle the specification claims about them.
-/

namespace WeatherMe

/-! ## Server: forecast post-processing (src/server/index.js lines 176-182, 229-235)

The JS code computes
  daily  = response.data.list.filter((_, idx) => idx % 8 === 0)
  hourly = response.data.list.slice(0, 24)
-/

/-- Embeds JS `Array.prototype.filter` with the element index passed to the
callback, starting at index `k`. -/
def jsFilterIdx (p : Nat → Bool) : Nat → List α → List α
  | _, [] => []
  | k, a :: l => if p k then a :: jsFilterIdx p (k + 1) l else jsFilterIdx p (k + 1) l

/-- Embeds `list.filter((_, idx) => idx % 8 === 0)` from the forecast handlers. -/
def dailySubset (l : List α) : List α :=
  jsFilterIdx (fun i => i % 8 == 0) 0 l

/-- Structural reformulation of `dailySubset`: keep the head, drop the next
seven entries, recurse. Used only to prove properties of `dailySubset`. -/
def every8 : List α → List α
  | [] => []
  | a :: l => a :: every8 (l.drop 7)
termination_by l => l.length
decreasing_by
  simp only [List.length_drop, List.length_cons]
  omega

theorem jsFilterIdx_mod8_shift (l : List α) :
    ∀ k, jsFilterIdx (fun i => i % 8 == 0) (k + 8) l
      = jsFilterIdx (fun i => i % 8 == 0) k l := by
  induction l with
  | nil => intro k; rfl
  | cons a t ih =>
      intro k
      have hmod : (k + 8) % 8 = k % 8 := by omega
      simp only [jsFilterIdx, hmod]
      have : k + 8 + 1 = (k + 1) + 8 := by omega
      rw [this, ih (k + 1)]

theorem jsFilterIdx_mod8_skip (l : List α) (j : Nat) (hj : j % 8 ≠ 0) :
    jsFilterIdx (fun i => i % 8 == 0) j l
      = jsFilterIdx (fun i => i % 8 == 0) (j + 1) (l.drop 1) := by
  cases l with
  | nil => rfl
  | cons a t =>
      simp only [jsFilterIdx, List.drop_succ_cons, List.drop_zero]
      have : ((j % 8 == 0) = false) := by simpa using hj
      simp [this]

theorem dailySubset_eq_every8 (l : List α) : dailySubset l = every8 l := by
  unfold dailySubset
  generalize hn : l.length = n
  induction n using Nat.strong_induction_on generalizing l with
  | _ n ih =>
    cases l with
    | nil => simp [jsFilterIdx, every8]
    | cons a t =>
        simp only [jsFilterIdx, every8]
        norm_num
        have h1 : jsFilterIdx (fun i => i % 8 == 0) 1 t
            = jsFilterIdx (fun i => i % 8 == 0) 8 (t.drop 7) := by
          rw [jsFilterIdx_mod8_skip t 1 (by omega),
              jsFilterIdx_mod8_skip _ 2 (by omega),
              jsFilterIdx_mod8_skip _ 3 (by omega),
              jsFilterIdx_mod8_skip _ 4 (by omega),
              jsFilterIdx_mod8_skip _ 5 (by omega),
              jsFilterIdx_mod8_skip _ 6 (by omega),
              jsFilterIdx_mod8_skip _ 7 (by omega)]
          simp [List.drop_drop]
        have h2 : jsFilterIdx (fun i => i % 8 == 0) 8 (t.drop 7)
            = jsFilterIdx (fun i => i % 8 == 0) 0 (t.drop 7) := by
          have := jsFilterIdx_mod8_shift (t.drop 7) 0
          simpa using this
        rw [h1, h2]
        subst hn
        exact ih (t.drop 7).length (by simp [List.length_drop]; omega) _ rfl

theorem every8_length (l : List α) : (every8 l).length = (l.length + 7) / 8 := by
  generalize hn : l.length = n
  induction n using Nat.strong_induction_on generalizing l with
  | _ n ih =>
    cases l with
    | nil => subst hn; simp [every8]
    | cons a t =>
        subst hn
        simp only [every8, List.length_cons]
        rw [ih (t.drop 7).length (by simp [List.length_drop]; omega) _ rfl]
        simp only [List.length_drop]
        omega

theorem every8_get? (l : List α) : ∀ i, (every8 l).get? i = l.get? (8 * i) := by
  generalize hn : l.length = n
  induction n using Nat.strong_induction_on generalizing l with
  | _ n ih =>
    cases l with
    | nil => intro i; simp [every8]
    | cons a t =>
        intro i
        cases i with
        | zero => simp [every8]
        | succ j =>
            simp only [every8, List.get?_cons_succ]
            subst hn
            rw [ih (t.drop 7).length (by simp [List.length_drop]; omega) _ rfl j]
            rw [List.get?_drop]
            have h8 : 8 * (j + 1) = 7 + 8 * j + 1 := by ring
            rw [h8, List.get?_cons_succ]

theorem dailySubset_length (l : List α) :
    (dailySubset l).length = (l.length + 7) / 8 := by
  rw [dailySubset_eq_every8, every8_length]

theorem dailySubset_get? (l : List α) (i : Nat) :
    (dailySubset l).get? i = l.get? (8 * i) := by
  rw [dailySubset_eq_every8, every8_get?]

/-! ## Server: request handlers (src/server/index.js)

Each Express handler is embedded as a function from the request's query
parameters and the upstream call's outcome to the HTTP status code the relay
responds with. A query parameter is `Option String` (`none` = absent).
JS truthiness on a string is false exactly for the empty string.
-/

/-- JS falsiness of a possibly-absent string query parameter: `!x` is true for
`undefined` and for the empty string. -/
def jsFalsyStr : Option String → Bool
  | none => true
  | some s => s == ""

/-- Outcome of the axios call to the upstream provider: a 2xx response,
an HTTP error response carrying `error.response.status`, or a network
error with no response at all (`error.response` is `undefined`). -/
inductive UpstreamOutcome where
  | success
  | httpFailure (code : Nat)
  | networkFailure
deriving DecidableEq

/-- Decimal digit characters folded into a natural number. -/
def digitsToNat (ds : List Char) : Nat :=
  ds.foldl (fun a c => 10 * a + (c.toNat - 48)) 0

/-- Model of JS `parseFloat` as used by the coordinate handlers: skip leading
whitespace, read an optional sign, then decimal digits with an optional
fractional part, ignoring any trailing junk; `none` models `NaN` (no numeric
prefix at all). Exponents, `Infinity` and hex forms are not modelled — no
claim in scope exercises them. -/
def js_parseFloat (s : String) : Option ℚ :=
  let l0 := s.data.dropWhile (fun c => c == ' ' || c == '\t' || c == '\n' || c == '\r')
  let isNeg : Bool := match l0 with | '-' :: _ => true | _ => false
  let l1 : List Char := match l0 with | '-' :: t => t | '+' :: t => t | _ => l0
  let ip := l1.takeWhile Char.isDigit
  let l2 := l1.dropWhile Char.isDigit
  let fp : List Char := match l2 with | '.' :: t => t.takeWhile Char.isDigit | _ => []
  if ip.isEmpty && fp.isEmpty then none
  else
    let mag : Int := digitsToNat (ip ++ fp)
    some (mkRat (if isNeg then -mag else mag) (10 ^ fp.length))

/-- Modelled from the spec: a whole string is "numeric" when it consists
exactly of an optional sign and decimal digits with an optional fractional
part, nothing more. Used only to state the spec's notion of a non-numeric
coordinate; the code itself never checks this. -/
def specNumericStr (s : String) : Bool :=
  let l1 : List Char := match s.data with | '-' :: t => t | '+' :: t => t | l => l
  let ip := l1.takeWhile Char.isDigit
  let l2 := l1.dropWhile Char.isDigit
  match l2 with
  | [] => !ip.isEmpty
  | '.' :: t => (!ip.isEmpty || !(t.takeWhile Char.isDigit).isEmpty)
      && (t.dropWhile Char.isDigit).isEmpty
  | _ => false

/-- What a coordinate handler decides before any network activity: answer
immediately with a status code, or call the upstream provider with the two
parsed coordinates. -/
inductive GeoAction where
  | respond (code : Nat)
  | callUpstream (lat lon : ℚ)
deriving DecidableEq

/-- Embeds the validation block shared verbatim by `GET /weather/geo`
(lines 86-106) and `GET /forecast` (lines 140-160): missing or empty `lat`
or `lon` → 400; `parseFloat` both; `isNaN` on either or a value outside
[-90, 90] × [-180, 180] → 400; otherwise call upstream with the parsed
values. -/
def validateCoords (lat lon : Option String) : GeoAction :=
  if jsFalsyStr lat || jsFalsyStr lon then .respond 400
  else
    match js_parseFloat (lat.getD ""), js_parseFloat (lon.getD "") with
    | some la, some lo =>
        if la < -90 ∨ la > 90 ∨ lo < -180 ∨ lo > 180 then .respond 400
        else .callUpstream la lo
    | _, _ => .respond 400

/-- Embeds `GET /weather` (lines 41-82): missing/empty city → 400; otherwise
the upstream outcome is mapped by the catch block: upstream 404 → 404,
upstream 401 → 401, anything else (other HTTP errors, network errors) → 500. -/
def weatherCityHandler (city : Option String) (up : UpstreamOutcome) : Nat :=
  if jsFalsyStr city then 400
  else
    match up with
    | .success => 200
    | .httpFailure c => if c = 404 then 404 else if c = 401 then 401 else 500
    | .networkFailure => 500

/-- Embeds `GET /weather/geo` (lines 85-136): coordinate validation, then the
catch block maps upstream 401 → 401 and everything else → 500. There is no
404 arm in this handler. -/
def weatherGeoHandler (lat lon : Option String) (up : UpstreamOutcome) : Nat :=
  match validateCoords lat lon with
  | .respond c => c
  | .callUpstream _ _ =>
      match up with
      | .success => 200
      | .httpFailure c => if c = 401 then 401 else 500
      | .networkFailure => 500

/-- Embeds `GET /forecast` (lines 139-203): coordinate validation, then the
catch block maps upstream 401 → 401, upstream 404 → 404, anything else → 500. -/
def forecastHandler (lat lon : Option String) (up : UpstreamOutcome) : Nat :=
  match validateCoords lat lon with
  | .respond c => c
  | .callUpstream _ _ =>
      match up with
      | .success => 200
      | .httpFailure c => if c = 401 then 401 else if c = 404 then 404 else 500
      | .networkFailure => 500

/-- Embeds `GET /forecast/city` (lines 206-256): missing/empty city → 400;
catch maps upstream 404 → 404, upstream 401 → 401, anything else → 500. -/
def forecastCityHandler (city : Option String) (up : UpstreamOutcome) : Nat :=
  if jsFalsyStr city then 400
  else
    match up with
    | .success => 200
    | .httpFailure c => if c = 404 then 404 else if c = 401 then 401 else 500
    | .networkFailure => 500

/-! ## Server: forecast success payload (lines 176-180 and 229-233) -/

/-- The upstream forecast body: its `list` field and all of its other fields
(`rest`), which the spread `...response.data` copies through unchanged. -/
structure ForecastUpstream (ε α : Type*) where
  rest : ε
  list : List α

/-- The relay's processed forecast body: the upstream fields plus the two
derived fields. -/
structure ForecastProcessed (ε α : Type*) where
  rest : ε
  list : List α
  daily : List α
  hourly : List α

/-- Embeds `processedData = { ...response.data, daily:
list.filter((_, idx) => idx % 8 === 0), hourly: list.slice(0, 24) }`. -/
def processForecast (d : ForecastUpstream ε α) : ForecastProcessed ε α :=
  { rest := d.rest
    list := d.list
    daily := dailySubset d.list
    hourly := d.list.take 24 }

/-! ## Client: data model (src/client/pages/index.js)

The fields below are exactly those the component reads from the upstream
observation (`weather.name`, `weather.sys.country`, `weather.dt`,
`weather.timezone`, `weather.main.temp`, `weather.main.humidity`,
`weather.wind.speed`, `weather.weather[0].main`,
`weather.weather[0].description`, `weather.coord.lat`, `weather.coord.lon`).
-/

/-- An upstream current-conditions snapshot as consumed by the client. -/
structure Observation where
  name : String
  country : String
  dt : Int
  timezone : Int
  temp : ℚ
  humidity : ℚ
  windSpeed : ℚ
  weatherMain : String
  weatherDescription : String
  coordLat : ℚ
  coordLon : ℚ
deriving DecidableEq

/-- A forecast series entry as consumed by the client render code
(`f.dt`, `f.temp` or `f.main.temp`, `f.weather[0].description`). -/
structure ForecastEntry where
  dt : Int
  temp : ℚ
  description : String
deriving DecidableEq

/-- The component state held in the five useState hooks (lines 14-18). -/
structure ClientState where
  city : String
  weather : Option Observation
  forecast : List ForecastEntry
  error : String
  loading : Bool
deriving DecidableEq

/-- An HTTP request the client can issue to the relay. -/
inductive Request where
  | health
  | weatherCity (city : String)
  | weatherGeo (lat lon : ℚ)
  | forecastReq (lat lon : ℚ)
deriving DecidableEq

/-- Outcome of `safeFetch` on a weather endpoint: parsed JSON data, or a
thrown error carrying the message that ends up rendered (HTTP errors,
HTML-instead-of-JSON, JSON parse failures and network errors all throw). -/
inductive FetchOutcome where
  | ok (data : Observation)
  | failed (msg : String)
deriving DecidableEq

/-- Outcome of the browser geolocation request in `getWeatherByLocation`:
the capability is absent, the position callback errors (denial/timeout),
or a position is delivered. -/
inductive GeoOutcome where
  | unsupported
  | denied
  | granted (lat lon : ℚ)
deriving DecidableEq

/-- A convenience constructor for concrete observations in witnesses and
counterexamples. -/
def mkObs (mainLabel description : String) (temp : ℚ) (dt timezone : Int) :
    Observation :=
  { name := "TestCity", country := "GB", dt := dt, timezone := timezone
    temp := temp, humidity := 50, windSpeed := 3
    weatherMain := mainLabel, weatherDescription := description
    coordLat := 0, coordLon := 0 }

/-! ## Client: query submission (lines 21-96)

`getWeather` and `getWeatherByLocation` are embedded as the net state update
of one invocation, given the outcomes of the network calls, paired with the
list of relay requests issued, in order. `testAPIConnection` (lines 21-28)
returns false both when `/health` responds non-2xx and when the fetch throws,
so a single `healthOk : Bool` captures it.
-/

/-- Embeds `getWeather` (lines 42-58): `if (!city) return` (JS falsiness:
only the empty string); otherwise set loading/clear error, probe `/health`,
on probe failure throw, else fetch `/weather?city=...`; the catch stores
the message with a leading marker and clears the observation; `finally`
clears loading. On success the observation is stored and a forecast fetch
for its own coordinates is fired. -/
def getWeather (s : ClientState) (healthOk : Bool) (fetched : FetchOutcome) :
    ClientState × List Request :=
  if s.city = "" then (s, [])
  else if !healthOk then
    ({ s with loading := false, error := "❌ Backend API not responding.", weather := none },
      [Request.health])
  else
    match fetched with
    | .failed msg =>
        ({ s with loading := false, error := "❌ " ++ msg, weather := none },
          [Request.health, Request.weatherCity s.city])
    | .ok data =>
        ({ s with loading := false, error := "", weather := some data },
          [Request.health, Request.weatherCity s.city,
            Request.forecastReq data.coordLat data.coordLon])

/-- Embeds `getWeatherByLocation` (lines 60-87): without geolocation support
the error is set and nothing else happens; on a position error the location
failure message is stored and loading cleared; with a position the flow is
the same as `getWeather` but against `/weather/geo`. -/
def getWeatherByLocation (s : ClientState) (geo : GeoOutcome) (healthOk : Bool)
    (fetched : FetchOutcome) : ClientState × List Request :=
  match geo with
  | .unsupported => ({ s with error := "Geolocation not supported." }, [])
  | .denied => ({ s with loading := false, error := "❌ Failed to get your location." }, [])
  | .granted lat lon =>
      if !healthOk then
        ({ s with loading := false, error := "❌ Backend API not responding.", weather := none },
          [Request.health])
      else
        match fetched with
        | .failed msg =>
            ({ s with loading := false, error := "❌ " ++ msg, weather := none },
              [Request.health, Request.weatherGeo lat lon])
        | .ok data =>
            ({ s with loading := false, error := "", weather := some data },
              [Request.health, Request.weatherGeo lat lon,
                Request.forecastReq lat lon])

/-- Outcome of the `/forecast` fetch inside `fetchForecast`: parsed JSON
whose `daily` field may be absent, or a thrown error. -/
inductive ForecastFetchOutcome where
  | ok (dailyField : Option (List ForecastEntry))
  | failed
deriving DecidableEq

/-- Embeds `fetchForecast` (lines 89-96): on success `setForecast(data.daily
|| [])`, on any failure `setForecast([])`. Only the forecast field changes. -/
def fetchForecast (s : ClientState) (res : ForecastFetchOutcome) : ClientState :=
  match res with
  | .ok d => { s with forecast := d.getD [] }
  | .failed => { s with forecast := [] }

/-! ## Client: render gates (lines 309, 324, 381)

JSX guards: `{error && ...}` shows the error box for a non-empty error
string, `{weather && ...}` shows the observation card, and
`{forecast.length > 0 && ...}` shows the forecast cards. -/

/-- The error box is rendered (line 309). -/
def errorDisplayed (s : ClientState) : Bool := !(s.error == "")

/-- The observation card is rendered (line 324). -/
def weatherDisplayed (s : ClientState) : Bool := s.weather.isSome

/-- The forecast card list is rendered (line 381). -/
def forecastDisplayed (s : ClientState) : Bool := decide (0 < s.forecast.length)

/-! ## Client: derivation functions (lines 98-135) -/

/-- The first list is a prefix of the second, by character comparison. -/
def startsWithChars : List Char → List Char → Bool
  | [], _ => true
  | _ :: _, [] => false
  | a :: t, b :: u => a == b && startsWithChars t u

/-- The needle occurs contiguously somewhere in the haystack. -/
def hasSubstrChars (needle : List Char) : List Char → Bool
  | [] => needle.isEmpty
  | b :: u => startsWithChars needle (b :: u) || hasSubstrChars needle u

/-- Embeds JS `String.prototype.includes`: the needle occurs inside the
haystack. -/
def jsIncludes (hay needle : String) : Bool := hasSubstrChars needle.data hay.data

/-- Embeds JS `toLowerCase` by mapping the core character lowering over the
string's characters (the condition strings involved are basic latin). -/
def jsToLower (s : String) : String := ⟨s.data.map Char.toLower⟩

/-- The animation categories the component can select among (lines 6-10). -/
inductive Animation where
  | clear
  | rain
  | snow
  | storm
  | cloud
deriving DecidableEq

/-- Embeds `getAnimation` (lines 110-127): `null` without an observation;
otherwise keyword tests on the lowercased condition label and description,
in order — rain, snow, storm (label tested for "thunderstorm"/"storm",
description only for "thunder"), cloud, clear (label tested for "clear",
description for "clear"/"sunny") — and a temperature fallback when no
keyword matches. -/
def getAnimation (w : Option Observation) : Option Animation :=
  match w with
  | none => none
  | some o =>
      some (
        if jsIncludes (jsToLower o.weatherMain) "rain"
            || jsIncludes (jsToLower o.weatherDescription) "rain" then .rain
        else if jsIncludes (jsToLower o.weatherMain) "snow"
            || jsIncludes (jsToLower o.weatherDescription) "snow" then .snow
        else if jsIncludes (jsToLower o.weatherMain) "thunderstorm"
            || jsIncludes (jsToLower o.weatherMain) "storm"
            || jsIncludes (jsToLower o.weatherDescription) "thunder" then .storm
        else if jsIncludes (jsToLower o.weatherMain) "cloud"
            || jsIncludes (jsToLower o.weatherDescription) "cloud" then .cloud
        else if jsIncludes (jsToLower o.weatherMain) "clear"
            || jsIncludes (jsToLower o.weatherDescription) "clear"
            || jsIncludes (jsToLower o.weatherDescription) "sunny" then .clear
        else if o.temp < 0 then .snow
        else if o.temp > 25 then .clear
        else .cloud)

/-- Follows the spec's words (§4.2): both the condition label and the
description are matched against the ordered keyword set
{rain, snow, thunderstorm/storm, cloud, clear/sunny}, first match wins,
with the same temperature fallback. Stated only to compare against
`getAnimation`. -/
def specAnimationCategory (o : Observation) : Animation :=
  if jsIncludes (jsToLower o.weatherMain) "rain"
      || jsIncludes (jsToLower o.weatherDescription) "rain" then .rain
  else if jsIncludes (jsToLower o.weatherMain) "snow"
      || jsIncludes (jsToLower o.weatherDescription) "snow" then .snow
  else if jsIncludes (jsToLower o.weatherMain) "thunderstorm"
      || jsIncludes (jsToLower o.weatherDescription) "thunderstorm"
      || jsIncludes (jsToLower o.weatherMain) "storm"
      || jsIncludes (jsToLower o.weatherDescription) "storm" then .storm
  else if jsIncludes (jsToLower o.weatherMain) "cloud"
      || jsIncludes (jsToLower o.weatherDescription) "cloud" then .cloud
  else if jsIncludes (jsToLower o.weatherMain) "clear"
      || jsIncludes (jsToLower o.weatherDescription) "clear"
      || jsIncludes (jsToLower o.weatherMain) "sunny"
      || jsIncludes (jsToLower o.weatherDescription) "sunny" then .clear
  else if o.temp < 0 then .snow
  else if o.temp > 25 then .clear
  else .cloud

/-- True when some keyword branch of `getAnimation` fires, i.e. the
temperature fallback is not reached. -/
def keywordMatch (o : Observation) : Bool :=
  jsIncludes (jsToLower o.weatherMain) "rain"
    || jsIncludes (jsToLower o.weatherDescription) "rain"
    || jsIncludes (jsToLower o.weatherMain) "snow"
    || jsIncludes (jsToLower o.weatherDescription) "snow"
    || jsIncludes (jsToLower o.weatherMain) "thunderstorm"
    || jsIncludes (jsToLower o.weatherMain) "storm"
    || jsIncludes (jsToLower o.weatherDescription) "thunder"
    || jsIncludes (jsToLower o.weatherMain) "cloud"
    || jsIncludes (jsToLower o.weatherDescription) "cloud"
    || jsIncludes (jsToLower o.weatherMain) "clear"
    || jsIncludes (jsToLower o.weatherDescription) "clear"
    || jsIncludes (jsToLower o.weatherDescription) "sunny"

/-- Embeds `getSuggestions` (lines 129-135): empty string without an
observation; otherwise the three temperature buckets with the exact
messages from the source. -/
def getSuggestions (w : Option Observation) : String :=
  match w with
  | none => ""
  | some o =>
      if o.temp < 5 then "🧣 Wear a jacket, it is cold!"
      else if o.temp ≤ 25 then "🧥 A light jacket is fine."
      else "🧢 Stay hydrated and wear sunglasses!"

/-- Embeds the epoch milliseconds handed to `new Date(...)` in `getDateTime`
(line 100): `(weather.dt + weather.timezone - tzOffsetMin * 60) * 1000`,
where `tzOffsetMin` is the value of `new Date().getTimezoneOffset()` — the
viewer's offset west of UTC in minutes, i.e. the negation of the viewer's
UTC offset. The instant is then formatted by `Intl.DateTimeFormat` with
`dateStyle: full, timeStyle: short, timeZone: UTC`; the formatting itself
is not modelled, only the instant it is applied to. -/
def getDateTimeEpochMs (o : Observation) (tzOffsetMin : Int) : Int :=
  (o.dt + o.timezone - tzOffsetMin * 60) * 1000

/-- Follows the spec's words (§4.2): display instant = observation timestamp
plus the observation UTC offset minus the viewer's own UTC offset (seconds),
as epoch milliseconds. Stated only to compare against `getDateTimeEpochMs`. -/
def specLocalTimeEpochMs (o : Observation) (viewerUtcOffsetSec : Int) : Int :=
  (o.dt + o.timezone - viewerUtcOffsetSec) * 1000

/-- A concrete forecast entry for concrete client states in witnesses and
counterexamples. -/
def sampleEntry : ForecastEntry :=
  { dt := 1700000000, temp := 12, description := "light rain" }

/-- A concrete idle client state with a pending city query. -/
def stParis : ClientState :=
  { city := "Paris", weather := none, forecast := [], error := "", loading := false }

/-- A concrete client state holding the results of an earlier successful
query: an observation and a non-empty forecast list. -/
def stParisLoaded : ClientState :=
  { city := "Paris", weather := some (mkObs "Clear" "clear sky" 20 0 0)
    forecast := [sampleEntry], error := "", loading := false }

/-- A concrete client state whose query text is a single space. -/
def stSpace : ClientState :=
  { city := " ", weather := none, forecast := [], error := "", loading := false }

/-- A concrete client state whose query text is empty. -/
def stEmpty : ClientState :=
  { city := "", weather := none, forecast := [], error := "", loading := false }

/-- Another concrete idle client state with a pending city query. -/
def stOslo : ClientState :=
  { city := "Oslo", weather := none, forecast := [], error := "", loading := false }

/-! ## Claims -/

/-- C1: the claim says `GET /weather/geo` applies the same upstream error
mapping as `GET /weather`, including upstream 404 → 404. It does not: the
geo catch block has no 404 arm, so an upstream 404 lands in the final else
and is answered with 500, while the city handler answers 404 on the same
upstream outcome. -/
theorem C1_counterexample :
    weatherGeoHandler (some "51.5") (some "-0.12") (UpstreamOutcome.httpFailure 404) = 500 ∧
    weatherCityHandler (some "London") (UpstreamOutcome.httpFailure 404) = 404 := by
  decide

/-- C1 (amended): for every coordinate query that reaches the upstream call,
`GET /weather/geo` maps upstream 401 to 401 and every other upstream failure
— including upstream 404 and network errors — to 500; upstream 404 is not
mapped to 404, unlike `getWeatherByCity`. -/
theorem C1_geo_error_mapping (lat lon : Option String) (a b : ℚ)
    (h : validateCoords lat lon = GeoAction.callUpstream a b) :
    weatherGeoHandler lat lon (UpstreamOutcome.httpFailure 401) = 401 ∧
    (∀ c : Nat, c ≠ 401 → weatherGeoHandler lat lon (UpstreamOutcome.httpFailure c) = 500) ∧
    weatherGeoHandler lat lon UpstreamOutcome.networkFailure = 500 := by
  refine ⟨?_, ?_, ?_⟩
  · simp [weatherGeoHandler, h]
  · intro c hc; simp [weatherGeoHandler, h, hc]
  · simp [weatherGeoHandler, h]

/-- C1 witness: the amended mapping evaluated at concrete coordinates and
upstream status 404. -/
theorem C1_geo_error_mapping_witness :
    weatherGeoHandler (some "10") (some "20") (UpstreamOutcome.httpFailure 404) = 500 :=
  (C1_geo_error_mapping (some "10") (some "20") 10 20 (by decide)).2.1 404 (by decide)

/-- C2: the claim says no stale success data (Observation or ForecastSeries)
is displayed alongside a new error. Starting from a state with a previously
fetched forecast, a failed weather query stores the error and clears the
observation but leaves the forecast list untouched, and the forecast render
gate keeps showing it next to the error box. -/
theorem C2_counterexample :
    errorDisplayed ((getWeather stParisLoaded true (FetchOutcome.failed "HTTP 404")).1) = true ∧
    (getWeather stParisLoaded true (FetchOutcome.failed "HTTP 404")).1.weather = none ∧
    forecastDisplayed ((getWeather stParisLoaded true (FetchOutcome.failed "HTTP 404")).1) = true ∧
    (getWeather stParisLoaded true (FetchOutcome.failed "HTTP 404")).1.forecast = [sampleEntry] := by
  decide

/-- C2 (amended): after any failed weather query (fetch failure or health
probe failure) the client stores a display-ready error message, clears the
prior Observation and clears the loading flag, so the UI is re-submittable —
but a prior ForecastSeries is not cleared and remains displayed alongside
the new error. -/
theorem C2_failure_state (s : ClientState) (msg : String) (h : s.city ≠ "") :
    ((getWeather s true (FetchOutcome.failed msg)).1.error = "❌ " ++ msg ∧
      (getWeather s true (FetchOutcome.failed msg)).1.weather = none ∧
      (getWeather s true (FetchOutcome.failed msg)).1.loading = false ∧
      (getWeather s true (FetchOutcome.failed msg)).1.forecast = s.forecast) ∧
    ∀ fo : FetchOutcome,
      (getWeather s false fo).1.error = "❌ Backend API not responding." ∧
      (getWeather s false fo).1.weather = none ∧
      (getWeather s false fo).1.loading = false ∧
      (getWeather s false fo).1.forecast = s.forecast := by
  constructor
  · simp [getWeather, h]
  · intro fo; simp [getWeather, h]

/-- C2 witness: the amended failure behavior evaluated at a concrete state
and a concrete fetch failure. -/
theorem C2_failure_state_witness :
    (getWeather stParis true (FetchOutcome.failed "HTTP 500")).1.error = "❌ " ++ "HTTP 500" ∧
    (getWeather stParis true (FetchOutcome.failed "HTTP 500")).1.weather = none ∧
    (getWeather stParis true (FetchOutcome.failed "HTTP 500")).1.loading = false ∧
    (getWeather stParis true (FetchOutcome.failed "HTTP 500")).1.forecast = stParis.forecast :=
  (C2_failure_state stParis "HTTP 500" (by decide)).1

/-- C3: the claim says DailySubset selection is idempotent. As a function it
is not: on a nine-entry series the selection keeps indices 0 and 8, and
selecting again from that two-entry result keeps only index 0. -/
theorem C3_counterexample :
    dailySubset (dailySubset ([0, 1, 2, 3, 4, 5, 6, 7, 8] : List Nat))
      ≠ dailySubset ([0, 1, 2, 3, 4, 5, 6, 7, 8] : List Nat) := by
  decide

/-- C3 (amended): DailySubset selection is deterministic — the same ordered
series always yields the same subsequence, namely the elements at indices
0, 8, 16, … — and its length is ceil(len/8) (in Nat arithmetic,
(len + 7) / 8); but composing the selection with itself is not the identity
on its output once the series has more than 8 entries. -/
theorem C3_daily_subset_deterministic {α : Type} (l₁ l₂ : List α) (h : l₁ = l₂) :
    dailySubset l₁ = dailySubset l₂ ∧
    (dailySubset l₁).length = (l₁.length + 7) / 8 ∧
    ∀ i, (dailySubset l₁).get? i = l₁.get? (8 * i) := by
  subst h
  exact ⟨rfl, dailySubset_length _, fun i => dailySubset_get? _ i⟩

/-- C3 witness: the amended statement evaluated on a concrete nine-entry
series. -/
theorem C3_daily_subset_deterministic_witness :
    (dailySubset ([0, 1, 2, 3, 4, 5, 6, 7, 8] : List Nat)).length =
      (([0, 1, 2, 3, 4, 5, 6, 7, 8] : List Nat).length + 7) / 8 :=
  (C3_daily_subset_deterministic [0, 1, 2, 3, 4, 5, 6, 7, 8]
    [0, 1, 2, 3, 4, 5, 6, 7, 8] rfl).2.1

/-- C4: the claim says both the condition label and the description are
matched against the keyword set {rain, snow, thunderstorm/storm, cloud,
clear/sunny}. The code tests the description only for "thunder", never for
"storm": on label "Haze" with description "dust storm" at 10°C the code
falls through every keyword branch to the temperature fallback (cloud),
while the spec's reading of the keyword set selects storm. -/
theorem C4_counterexample :
    getAnimation (some (mkObs "Haze" "dust storm" 10 0 0)) = some Animation.cloud ∧
    specAnimationCategory (mkObs "Haze" "dust storm" 10 0 0) = Animation.storm := by
  decide

/-- C4 (amended): the keyword branches run in the order rain, snow, storm,
cloud, clear with first match winning, where the storm branch tests the
label for "thunderstorm"/"storm" but the description only for "thunder",
and "sunny" is tested only in the description; description "light rain"
yields rain regardless of the label, condition "clear sky" yields clear,
and when no keyword branch fires the temperature fallback applies: below
0°C snow, above 25°C clear, otherwise cloud. -/
theorem C4_animation_keywords (o : Observation) :
    (jsIncludes (jsToLower o.weatherDescription) "rain" = true →
      getAnimation (some o) = some Animation.rain) ∧
    getAnimation (some (mkObs "Clear" "clear sky" 10 0 0)) = some Animation.clear ∧
    (keywordMatch o = false →
      (o.temp < 0 → getAnimation (some o) = some Animation.snow) ∧
      (o.temp > 25 → getAnimation (some o) = some Animation.clear) ∧
      (0 ≤ o.temp → o.temp ≤ 25 → getAnimation (some o) = some Animation.cloud)) := by
  refine ⟨fun h => ?_, by decide, fun hk => ?_⟩
  · simp [getAnimation, h]
  · simp only [keywordMatch, Bool.or_eq_false_iff, and_assoc] at hk
    obtain ⟨h1, h2, h3, h4, h5, h6, h7, h8, h9, h10, h11, h12⟩ := hk
    refine ⟨fun ht => ?_, fun ht => ?_, fun ht0 ht25 => ?_⟩
    · simp [getAnimation, h1, h2, h3, h4, h5, h6, h7, h8, h9, h10, h11, h12, ht]
    · have hn0 : ¬(o.temp < 0) := not_lt.mpr (le_trans (by norm_num) ht.le)
      simp [getAnimation, h1, h2, h3, h4, h5, h6, h7, h8, h9, h10, h11, h12, hn0, ht]
    · have hn0 : ¬(o.temp < 0) := not_lt.mpr ht0
      have hn25 : ¬(o.temp > 25) := not_lt.mpr ht25
      simp [getAnimation, h1, h2, h3, h4, h5, h6, h7, h8, h9, h10, h11, h12, hn0, hn25]

/-- C4 witness: temperature −5°C with an unmatched label reaches the
fallback and yields snow. -/
theorem C4_animation_keywords_witness :
    getAnimation (some (mkObs "Haze" "haze" (-5) 0 0)) = some Animation.snow :=
  ((C4_animation_keywords (mkObs "Haze" "haze" (-5) 0 0)).2.2 (by decide)).1 (by decide)

/-- C5: `getSuggestions` buckets by temperature with inclusive moderate
boundaries exactly as claimed: below 5°C the cold message, from 5°C to 25°C
inclusive the moderate message, above 25°C the hot message. -/
theorem C5_suggestion_buckets (o : Observation) :
    (o.temp < 5 → getSuggestions (some o) = "🧣 Wear a jacket, it is cold!") ∧
    (5 ≤ o.temp → o.temp ≤ 25 → getSuggestions (some o) = "🧥 A light jacket is fine.") ∧
    (25 < o.temp → getSuggestions (some o) = "🧢 Stay hydrated and wear sunglasses!") := by
  have e : getSuggestions (some o) =
      if o.temp < 5 then "🧣 Wear a jacket, it is cold!"
      else if o.temp ≤ 25 then "🧥 A light jacket is fine."
      else "🧢 Stay hydrated and wear sunglasses!" := rfl
  refine ⟨fun h => ?_, fun h1 h2 => ?_, fun h => ?_⟩
  · rw [e, if_pos h]
  · rw [e, if_neg (not_lt.mpr h1), if_pos h2]
  · rw [e, if_neg (not_lt.mpr (le_trans (by norm_num) h.le)), if_neg (not_le.mpr h)]

/-- C5 witness: the buckets at 4.9, 5.0, 25.0 and 25.1 degrees. -/
theorem C5_suggestion_buckets_witness :
    getSuggestions (some (mkObs "Clear" "few clouds" (mkRat 49 10) 0 0)) =
      "🧣 Wear a jacket, it is cold!" ∧
    getSuggestions (some (mkObs "Clear" "few clouds" 5 0 0)) =
      "🧥 A light jacket is fine." ∧
    getSuggestions (some (mkObs "Clear" "few clouds" 25 0 0)) =
      "🧥 A light jacket is fine." ∧
    getSuggestions (some (mkObs "Clear" "few clouds" (mkRat 251 10) 0 0)) =
      "🧢 Stay hydrated and wear sunglasses!" :=
  ⟨(C5_suggestion_buckets _).1 (by decide),
    (C5_suggestion_buckets _).2.1 (by decide) (by decide),
    (C5_suggestion_buckets _).2.1 (by decide) (by decide),
    (C5_suggestion_buckets _).2.2 (by decide)⟩

/-- C6: the claim says a whitespace-only query is a no-op. The guard is JS
falsiness, which is false only for the empty string: with city " " the
handler proceeds, issues the health probe and changes state. -/
theorem C6_counterexample :
    (getWeather stSpace false (FetchOutcome.failed "unused")).2 = [Request.health] ∧
    (getWeather stSpace false (FetchOutcome.failed "unused")).1 ≠ stSpace := by
  decide

/-- C6 (amended): `getWeather` is a no-op — no request issued, state
unchanged — exactly when the query text is the empty string; any non-empty
text, whitespace-only included, issues at least the health probe. -/
theorem C6_empty_query_noop (s : ClientState) (healthOk : Bool) (fo : FetchOutcome) :
    (s.city = "" → getWeather s healthOk fo = (s, [])) ∧
    (s.city ≠ "" → (getWeather s healthOk fo).2 ≠ []) := by
  constructor
  · intro h; simp [getWeather, h]
  · intro h; cases healthOk <;> cases fo <;> simp [getWeather, h]

/-- C6 witness: the no-op direction evaluated at a concrete empty-city
state. -/
theorem C6_empty_query_noop_witness :
    getWeather stEmpty true (FetchOutcome.failed "x") = (stEmpty, []) :=
  (C6_empty_query_noop _ _ _).1 rfl

/-- C7: the claim says every non-numeric coordinate is rejected with 400
before upstream is called. `parseFloat` accepts any numeric prefix:
"12abc" is not a numeral, yet the handlers parse it as 12 and call
upstream, answering 200 on upstream success. -/
theorem C7_counterexample :
    specNumericStr "12abc" = false ∧
    validateCoords (some "12abc") (some "0") = GeoAction.callUpstream 12 0 ∧
    weatherGeoHandler (some "12abc") (some "0") UpstreamOutcome.success = 200 ∧
    forecastHandler (some "12abc") (some "0") UpstreamOutcome.success = 200 := by
  decide

/-- C7 (amended): both coordinate endpoints answer 400 independently of the
upstream outcome whenever a coordinate is missing or empty, has no numeric
prefix at all (parseFloat NaN), or parses to a value outside
[-90, 90] × [-180, 180]; a non-numeric string with a numeric prefix is
instead accepted with the prefix's value. -/
theorem C7_invalid_coords_bad_request (lat lon : Option String) (up : UpstreamOutcome)
    (h : jsFalsyStr lat = true ∨ jsFalsyStr lon = true
      ∨ js_parseFloat (lat.getD "") = none ∨ js_parseFloat (lon.getD "") = none
      ∨ ∃ a b, js_parseFloat (lat.getD "") = some a ∧ js_parseFloat (lon.getD "") = some b
          ∧ (a < -90 ∨ a > 90 ∨ b < -180 ∨ b > 180)) :
    weatherGeoHandler lat lon up = 400 ∧ forecastHandler lat lon up = 400 := by
  have hv : validateCoords lat lon = GeoAction.respond 400 := by
    unfold validateCoords
    split
    · rfl
    · rename_i hcond
      split
      · rename_i la lo heq1 heq2
        split
        · rfl
        · rename_i hrange
          exfalso
          rcases h with h | h | h | h | ⟨a, b, ha, hb, hr⟩
          · simp [h] at hcond
          · simp [h] at hcond
          · rw [h] at heq1; exact Option.noConfusion heq1
          · rw [h] at heq2; exact Option.noConfusion heq2
          · rw [ha] at heq1; rw [hb] at heq2
            cases Option.some.inj heq1
            cases Option.some.inj heq2
            exact hrange hr
      · rfl
  refine ⟨?_, ?_⟩ <;> simp [weatherGeoHandler, forecastHandler, hv]

/-- C7 witness: a coordinate with no numeric prefix is answered 400 on both
endpoints even when upstream would have succeeded. -/
theorem C7_invalid_coords_bad_request_witness :
    weatherGeoHandler (some "abc") (some "0") UpstreamOutcome.success = 400 ∧
    forecastHandler (some "abc") (some "0") UpstreamOutcome.success = 400 :=
  C7_invalid_coords_bad_request (some "abc") (some "0") UpstreamOutcome.success
    (Or.inr (Or.inr (Or.inl (by decide))))

/-- C8: on forecast success the relay returns the upstream payload unchanged
— every spread-copied field and the series itself — plus exactly the two
derived fields: `daily`, the every-8th subsequence of the series (length
ceil(len/8)), and `hourly`, the first 24 raw entries. -/
theorem C8_forecast_payload {ε α : Type} (d : ForecastUpstream ε α) :
    (processForecast d).rest = d.rest ∧
    (processForecast d).list = d.list ∧
    (processForecast d).daily = dailySubset d.list ∧
    (processForecast d).daily.length = (d.list.length + 7) / 8 ∧
    (∀ i, (processForecast d).daily.get? i = d.list.get? (8 * i)) ∧
    (processForecast d).hourly = d.list.take 24 :=
  ⟨rfl, rfl, rfl, dailySubset_length d.list, fun i => dailySubset_get? d.list i, rfl⟩

/-- C9: the claim says displayed time = timestamp + observation offset −
viewer offset. `getTimezoneOffset` is the negation of the viewer's UTC
offset: for a viewer at UTC+1 (offset +3600 s, `getTimezoneOffset` = −60)
on an observation with dt = 0 and timezone = 0 the code computes instant
+3600000 ms, while the spec's formula gives −3600000 ms. -/
theorem C9_counterexample :
    getDateTimeEpochMs (mkObs "Clear" "clear sky" 20 0 0) (-60) ≠
      specLocalTimeEpochMs (mkObs "Clear" "clear sky" 20 0 0) 3600 ∧
    getDateTimeEpochMs (mkObs "Clear" "clear sky" 20 0 0) (-60) = 3600000 ∧
    specLocalTimeEpochMs (mkObs "Clear" "clear sky" 20 0 0) 3600 = -3600000 := by
  decide

/-- C9 (amended): for a viewer whose UTC offset is v minutes
(`getTimezoneOffset` returns −v), the displayed instant is the observation
timestamp plus the observation UTC offset PLUS the viewer's offset —
equivalently, the spec's formula applied to the negation of the viewer's
offset — formatted as a full date and short time string in UTC. -/
theorem C9_local_time_formula (o : Observation) (v : Int) :
    getDateTimeEpochMs o (-v) = (o.dt + o.timezone + v * 60) * 1000 ∧
    getDateTimeEpochMs o (-v) = specLocalTimeEpochMs o (-(v * 60)) := by
  constructor <;> simp only [getDateTimeEpochMs, specLocalTimeEpochMs] <;> ring

/-- C10: both query forms probe `GET /health` first; when the probe fails
the stored error is the backend-not-responding message (with the client's
uniform error marker), the Observation is cleared, and the only request
issued is the probe — `/weather` (or `/weather/geo`) is never called. In
every run the probe is the first request issued. -/
theorem C10_health_gate (s : ClientState) (fo : FetchOutcome) (lat lon : ℚ)
    (h : s.city ≠ "") :
    ((getWeather s false fo).1.error = "❌ Backend API not responding." ∧
      (getWeather s false fo).1.weather = none ∧
      (getWeather s false fo).2 = [Request.health]) ∧
    ((getWeatherByLocation s (GeoOutcome.granted lat lon) false fo).1.error =
        "❌ Backend API not responding." ∧
      (getWeatherByLocation s (GeoOutcome.granted lat lon) false fo).1.weather = none ∧
      (getWeatherByLocation s (GeoOutcome.granted lat lon) false fo).2 = [Request.health]) ∧
    (∀ hOk : Bool, ((getWeather s hOk fo).2).head? = some Request.health) ∧
    (∀ hOk : Bool,
      ((getWeatherByLocation s (GeoOutcome.granted lat lon) hOk fo).2).head? =
        some Request.health) := by
  refine ⟨by simp [getWeather, h], by simp [getWeatherByLocation], ?_, ?_⟩
  · intro hOk; cases hOk <;> cases fo <;> simp [getWeather, h]
  · intro hOk; cases hOk <;> cases fo <;> simp [getWeatherByLocation]

/-- C10 witness: the health gate evaluated at a concrete state and fetch
outcome. -/
theorem C10_health_gate_witness :
    (getWeather stOslo false (FetchOutcome.failed "x")).1.error =
      "❌ Backend API not responding." ∧
    (getWeather stOslo false (FetchOutcome.failed "x")).1.weather = none ∧
    (getWeather stOslo false (FetchOutcome.failed "x")).2 = [Request.health] :=
  (C10_health_gate stOslo (FetchOutcome.failed "x") 1 2 (by decide)).1

end WeatherMe
